import Mathlib

/-!
Shallow embedding of the etw_example repository (a minimal producer-side
ETW logging facility) and proofs about its specified behaviour.

The repository ships several near-identical variants of the same
translation unit:
 * the variant inside src/Log/MiniEtwLog.h (header plus implementation,
   referred to below as the LogH variant), and
 * two textually identical implementation copies inside
   src/unnamed/part_000 (referred to below as the Part000 variant; the
   first copy implements the optional-expectation Verifier, the second
   the fixed-expectation one).

Numeric status codes, Windows constants and the control-block fields are
modelled as Nat; strings handed to the platform are modelled as lists of
bytes (List Nat); platform calls are modelled by passing in the status
code each call would return and recording the call trace.
-/

namespace EtwSpec

/-! Status codes and Windows constants, with the values of the Windows
headers included by the source. -/

def ERROR_SUCCESS : Nat := 0

def S_OK : Nat := 0

def ERROR_ALREADY_EXISTS : Nat := 183

def E_FAIL : Nat := 0x80004005

def WNODE_FLAG_TRACED_GUID : Nat := 0x00020000

def EVENT_TRACE_FILE_MODE_SEQUENTIAL : Nat := 0x00000001

def EVENT_TRACE_PRIVATE_LOGGER_MODE : Nat := 0x00000800

def EVENT_TRACE_PRIVATE_IN_PROC : Nat := 0x00020000

/-- Numeric range of a 32 bit unsigned value (ULONG). -/
def UInt32Mod : Nat := 2 ^ 32

/-- Embedding of the SUCCEEDED macro: the code, read as a signed 32 bit
HRESULT, is nonnegative, i.e. bit 31 is clear. -/
def SUCCEEDED (hresult : Nat) : Bool := hresult % UInt32Mod < 2 ^ 31

/-! The ResultCode Verifier (EtwLog::VerifyHResult).

The thrown std::system_error is modelled by the Failure structure: it
carries the numeric code, the explicit message string built at the throw
site (context), and the message the platform resolves for the code
(codeMessage, the text std::error_code supplies to what()). The platform
message tables are modelled by MsgPlatform: errorMessage c is the text of
std::error_code with value c in the system category, and formatMessage c
is the text FormatMessageA produces for c, Option.none when that call
returns 0. -/

structure Failure where
  code : Nat
  context : String
  codeMessage : String
  deriving DecidableEq, Repr

structure MsgPlatform where
  errorMessage : Nat → String
  formatMessage : Nat → Option String

/-- Failure construction shared by both Verifier variants, translated from
the body of the if in EtwLog::VerifyHResult: when the platform has no
properly formatted message for the code (its message equals the message of
a default constructed error code) and FormatMessageA yields text, that
text is prepended to the additional info; otherwise the explicit string is
the additional info alone. -/
def mkFailure (p : MsgPlatform) (hresult : Nat) (additionalInfo : String) : Failure :=
  if p.errorMessage hresult = p.errorMessage 0 then
    match p.formatMessage hresult with
    | Option.some s =>
      { code := hresult, context := s ++ additionalInfo, codeMessage := p.errorMessage hresult }
    | Option.none =>
      { code := hresult, context := additionalInfo, codeMessage := p.errorMessage hresult }
  else
    { code := hresult, context := additionalInfo, codeMessage := p.errorMessage hresult }

/-- Fixed-expectation Verifier variant (src/Log/MiniEtwLog.h and the second
copy in src/unnamed/part_000): throws exactly when the code differs from
the expected good result. -/
def VerifyHResult (p : MsgPlatform) (hresult : Nat) (additionalInfo : String)
    (expectedGoodResult : Nat) : Except Failure Unit :=
  if hresult ≠ expectedGoodResult then
    Except.error (mkFailure p hresult additionalInfo)
  else
    Except.ok ()

/-- Optional-expectation Verifier variant (first copy in
src/unnamed/part_000): the C++ condition is
(expectedGoodResult && hresult != *expectedGoodResult) || !SUCCEEDED(hresult),
with that parenthesisation forced by operator precedence. -/
def VerifyHResultOpt (p : MsgPlatform) (hresult : Nat) (additionalInfo : String)
    (expectedGoodResult : Option Nat) : Except Failure Unit :=
  if (expectedGoodResult.any fun e => hresult != e) || !(SUCCEEDED hresult) then
    Except.error (mkFailure p hresult additionalInfo)
  else
    Except.ok ()

/-- Concrete message platform whose system category resolves every code to
the same text and whose message table has no entries; used to evaluate the
model at concrete inputs. -/
def trivP : MsgPlatform :=
  { errorMessage := fun _ => "m", formatMessage := fun _ => Option.none }

/-- Concrete message platform with no properly formatted system category
messages but a message table answering every request with the text F. -/
def fmtP : MsgPlatform :=
  { errorMessage := fun _ => "m", formatMessage := fun _ => Option.some "F" }

example : VerifyHResult trivP 0 ("x") ERROR_SUCCESS = Except.ok () := by rfl

example : VerifyHResult trivP 5 ("x") ERROR_SUCCESS =
    Except.error { code := 5, context := "x", codeMessage := "m" } := by rfl

example : VerifyHResultOpt trivP 5 ("x") (Option.some 5) = Except.ok () := by rfl

example : VerifyHResultOpt trivP E_FAIL ("x") (Option.some E_FAIL) =
    Except.error { code := E_FAIL, context := "x", codeMessage := "m" } := by rfl

example : VerifyHResultOpt fmtP 5 ("x") (Option.some 0) =
    Except.error { code := 5, context := "Fx", codeMessage := "m" } := by rfl

/-! Control-Block Packer (Controllers::EventTracePropertiesWithBuffers).

The EVENT_TRACE_PROPERTIES fields written by the constructors are
modelled by EtwProperties; the trailing name and path buffers by byte
lists that ZeroMemory leaves zero filled. The offsetof and sizeof values
are facts of the compiler chosen memory layout, so they enter the model
through a Layout parameter rather than as hardcoded numbers. -/

structure Guid where
  value : Nat
  deriving DecidableEq, Repr

/-- Zero initialised GUID, the state ZeroMemory leaves Wnode.Guid in. -/
def zeroGuid : Guid := { value := 0 }

structure Layout where
  structSize : Nat
  sessionNameOffset : Nat
  logFilePathOffset : Nat
  deriving DecidableEq, Repr

/-- Layout of EventTracePropertiesWithBuffers on x64 Windows, where
EVENT_TRACE_PROPERTIES occupies 120 bytes: the name buffer starts right
after it and the path buffer after the 256 byte name buffer. Used only to
evaluate the model at concrete inputs. -/
def x64Layout : Layout :=
  { structSize := 1400, sessionNameOffset := 120, logFilePathOffset := 376 }

def c_maxBufferSize : Nat := 16384

def sessionNameCapacity : Nat := 256

def logFilePathCapacity : Nat := 1024

/-- Embedding of std::clamp from algorithm as used by the constructors. -/
def clampSizeT (v lo hi : Nat) : Nat :=
  if v < lo then lo else if hi < v then hi else v

structure EtwProperties where
  wnodeBufferSize : Nat
  wnodeFlags : Nat
  wnodeClientContext : Nat
  wnodeGuid : Guid
  loggerNameOffset : Nat
  logFileNameOffset : Nat
  logFileMode : Nat
  bufferSize : Nat
  deriving DecidableEq, Repr

structure EventTracePropertiesWithBuffers where
  props : EtwProperties
  sessionName : List Nat
  logFilePath : List Nat
  deriving DecidableEq, Repr

/-- Outcome of code guarded by an assert: either the value, or a failed
assertion, which aborts the process rather than raising a recoverable
error. -/
inductive CtorOutcome (α : Type)
  | ok (a : α)
  | assertFail
  deriving DecidableEq, Repr

/-- Embedding of SetLogFilePath: assert the path fits the 1024 byte
buffer, then copy its bytes over the start of the buffer, leaving the
bytes after it unchanged. -/
def setLogFilePathOn (b : EventTracePropertiesWithBuffers) (logFilePath : List Nat) :
    CtorOutcome EventTracePropertiesWithBuffers :=
  if logFilePath.length ≤ logFilePathCapacity then
    CtorOutcome.ok { b with logFilePath := logFilePath ++ b.logFilePath.drop logFilePath.length }
  else
    CtorOutcome.assertFail

/-- Fixed fields written by the LogH variant constructor, in source order:
all three logging mode flags are set and Wnode.Guid receives the sessionId
argument (the provider id in that variant). -/
def mkPropsFieldsLogH (l : Layout) (sessionId : Guid) (bufferSize : Nat) : EtwProperties :=
  { wnodeBufferSize := l.structSize
    loggerNameOffset := l.sessionNameOffset
    logFileNameOffset := l.logFilePathOffset
    wnodeFlags := WNODE_FLAG_TRACED_GUID
    wnodeClientContext := 1
    wnodeGuid := sessionId
    logFileMode :=
      EVENT_TRACE_FILE_MODE_SEQUENTIAL
        ||| EVENT_TRACE_PRIVATE_LOGGER_MODE
        ||| EVENT_TRACE_PRIVATE_IN_PROC
    bufferSize := clampSizeT bufferSize 0 c_maxBufferSize }

/-- Fixed fields written by the Part000 variant constructor (both copies
in src/unnamed/part_000 are textually identical here): the line storing
sessionId into Wnode.Guid is commented out, so ZeroMemory leaves the guid
zero for every input, and only the sequential file mode flag is set. -/
def mkPropsFieldsPart000 (l : Layout) (sessionId : Guid) (bufferSize : Nat) : EtwProperties :=
  { wnodeBufferSize := l.structSize
    loggerNameOffset := l.sessionNameOffset
    logFileNameOffset := l.logFilePathOffset
    wnodeFlags := WNODE_FLAG_TRACED_GUID
    wnodeClientContext := 1
    wnodeGuid := zeroGuid
    logFileMode := EVENT_TRACE_FILE_MODE_SEQUENTIAL
    bufferSize := clampSizeT bufferSize 0 c_maxBufferSize }

/-- State of the block after ZeroMemory and before SetLogFilePath: fixed
fields written, both trailing buffers still zero filled. -/
def zeroedBlock (fields : EtwProperties) : EventTracePropertiesWithBuffers :=
  { props := fields
    sessionName := List.replicate sessionNameCapacity 0
    logFilePath := List.replicate logFilePathCapacity 0 }

/-- Whole constructor of the LogH variant control block. -/
def mkPropsLogH (l : Layout) (sessionId : Guid) (bufferSize : Nat) (logFilePath : List Nat) :
    CtorOutcome EventTracePropertiesWithBuffers :=
  setLogFilePathOn (zeroedBlock (mkPropsFieldsLogH l sessionId bufferSize)) logFilePath

/-- Whole constructor of the Part000 variant control block. -/
def mkPropsPart000 (l : Layout) (sessionId : Guid) (bufferSize : Nat) (logFilePath : List Nat) :
    CtorOutcome EventTracePropertiesWithBuffers :=
  setLogFilePathOn (zeroedBlock (mkPropsFieldsPart000 l sessionId bufferSize)) logFilePath

/-- Fixed fields of the block a constructor produced, Option.none when the
path assert failed. -/
def producedProps : CtorOutcome EventTracePropertiesWithBuffers → Option EtwProperties
  | CtorOutcome.ok b => Option.some b.props
  | CtorOutcome.assertFail => Option.none

/-! Record emission path (MiniLog::Impl::Write). All three Write bodies in
the repository are textually identical. The EVENT_DATA_DESCRIPTOR models a
pointer by the byte sequence it addresses; the ULONG length argument is
the size_t payload length reduced modulo 2 to the 32. -/

structure EVENT_DESCRIPTOR where
  Id : Nat
  Version : Nat
  Channel : Nat
  Level : Nat
  Opcode : Nat
  Task : Nat
  Keyword : Nat
  deriving DecidableEq, Repr

/-- The constant descriptor c_descriptor from MiniLog::Impl::Write, with
the field values of the source initialiser. -/
def c_descriptor : EVENT_DESCRIPTOR :=
  { Id := 1, Version := 1, Channel := 0, Level := 0, Opcode := 0, Task := 0, Keyword := 0 }

structure EVENT_DATA_DESCRIPTOR where
  Ptr : List Nat
  Size : Nat
  deriving DecidableEq, Repr

def EventDataDescCreate (data : List Nat) (size : Nat) : EVENT_DATA_DESCRIPTOR :=
  { Ptr := data, Size := size }

/-- One EventWrite platform call as issued by Write: the descriptor, the
count argument passed for the number of data descriptors, and the data
descriptor array. -/
structure WriteCall where
  descriptor : EVENT_DESCRIPTOR
  userDataCount : Nat
  userData : List EVENT_DATA_DESCRIPTOR
  deriving DecidableEq, Repr

/-- Embedding of MiniLog::Impl::Write: build one data descriptor over the
message bytes, issue one EventWrite call, and verify its result against
ERROR_SUCCESS. The status EventWrite would return is passed in as
eventWriteResult. -/
def implWrite (p : MsgPlatform) (message : List Nat) (eventWriteResult : Nat) :
    List WriteCall × Except Failure Unit :=
  let d := EventDataDescCreate message (message.length % UInt32Mod)
  ([{ descriptor := c_descriptor, userDataCount := 1, userData := [d] }],
    VerifyHResult p eventWriteResult ("EventWrite") ERROR_SUCCESS)

/-! Session construction (Controllers::Session::Session), identical in all
variants: call StartTraceA; if it reports ERROR_ALREADY_EXISTS, issue a
stop control call whose outcome is discarded and call StartTraceA once
more; verify the final result against ERROR_SUCCESS. -/

inductive CallName
  | coCreateGuid
  | eventRegister
  | createDirectories
  | startTrace
  | controlStop
  | enableTrace
  deriving DecidableEq, Repr

/-- Embedding of the Session constructor body after the name assert. The
three status arguments are the results the platform would hand back to the
first StartTraceA, to the stop ControlTraceA, and to the retried
StartTraceA; the returned list records each call issued together with the
status it returned. -/
def sessionCtor (p : MsgPlatform) (startResult1 stopResult startResult2 : Nat) :
    List (CallName × Nat) × Except Failure Unit :=
  if startResult1 = ERROR_ALREADY_EXISTS then
    ([(CallName.startTrace, startResult1), (CallName.controlStop, stopResult),
        (CallName.startTrace, startResult2)],
      VerifyHResult p startResult2 ("StartTrace") ERROR_SUCCESS)
  else
    ([(CallName.startTrace, startResult1)],
      VerifyHResult p startResult1 ("StartTrace") ERROR_SUCCESS)

/-! Teardown protocol of MiniLog::Impl. Destruction of a C++ object runs
the destructors of its members in reverse declaration order; each member
destructor here issues one best-effort platform call whose result is
discarded (EnableTraceEx2 with the disable control code, ControlTraceA
with the stop control code, EventUnregister). -/

inductive TeardownStep
  | disableProvider
  | stopSession
  | unregisterProvider
  deriving DecidableEq, Repr

inductive ImplMember
  | providerId
  | sessionId
  | provider
  | session
  | enabledProvider
  deriving DecidableEq, Repr

/-- Best-effort platform call made by the destructor of each member; the
two GUID members have no teardown action. -/
def memberTeardown : ImplMember → Option TeardownStep
  | ImplMember.providerId => Option.none
  | ImplMember.sessionId => Option.none
  | ImplMember.provider => Option.some TeardownStep.unregisterProvider
  | ImplMember.session => Option.some TeardownStep.stopSession
  | ImplMember.enabledProvider => Option.some TeardownStep.disableProvider

/-- Member declaration order of MiniLog::Impl in src/Log/MiniEtwLog.h. -/
def implLogHMembers : List ImplMember :=
  [ImplMember.providerId, ImplMember.provider, ImplMember.session, ImplMember.enabledProvider]

/-- Member declaration order of MiniLog::Impl in both copies inside
src/unnamed/part_000. -/
def implPart000Members : List ImplMember :=
  [ImplMember.sessionId, ImplMember.providerId, ImplMember.session,
    ImplMember.enabledProvider, ImplMember.provider]

/-- Teardown call sequence of an Impl: member destructors in reverse
declaration order. -/
def destructorSteps (members : List ImplMember) : List TeardownStep :=
  members.reverse.filterMap memberTeardown

/-- Teardown run against a platform that answers each best-effort call
with platformResults: every call is issued unconditionally and its status
is discarded, so the run is the full step list no matter what the platform
answers, and no failure is ever produced. -/
def runDestructor (members : List ImplMember) (platformResults : TeardownStep → Nat) :
    List (TeardownStep × Nat) :=
  (destructorSteps members).map fun s => (s, platformResults s)

/-! Construction of MiniLog::Impl in the LogH variant, as an event trace:
the member initialiser list runs MakeGuid (CoCreateGuid) for m_providerId,
EventRegister for m_provider, then for m_session MakeDirectories on the
output folder, the control block constructor with its path assert, the
session name assert, StartTraceA with the retry protocol, and finally
EnableTraceEx2 for m_enabledProvider. -/

/-- Byte values of the string appended to the output folder to form the
log file path: a backslash followed by log.etl. -/
def logEtlSuffix : List Nat := [92, 108, 111, 103, 46, 101, 116, 108]

/-- Results the platform hands back to each call the constructor can
issue. -/
structure PlatformResults where
  coCreateGuid : Nat
  eventRegister : Nat
  startTrace1 : Nat
  controlStop : Nat
  startTrace2 : Nat
  enableTrace : Nat
  deriving DecidableEq, Repr

inductive CtorEvent
  | call (c : CallName)
  | assertPathLen (ok : Bool)
  | assertNameLen (ok : Bool)
  deriving DecidableEq, Repr

inductive CtorResult
  | ok
  | raised (f : Failure)
  | assertFailed
  deriving DecidableEq, Repr

/-- Embedding of the LogH variant MiniLog::Impl constructor: the ordered
event trace it produces and how it ends. providerId stands for the GUID
value MakeGuid produced. -/
def implCtorLogH (pr : PlatformResults) (p : MsgPlatform) (l : Layout) (providerId : Guid)
    (sessionName outputFolder : List Nat) (bufferSize : Nat) :
    List CtorEvent × CtorResult :=
  let e1 := [CtorEvent.call CallName.coCreateGuid]
  match VerifyHResult p pr.coCreateGuid ("CoCreateGuid failed") S_OK with
  | Except.error f => (e1, CtorResult.raised f)
  | Except.ok _ =>
    let e2 := e1 ++ [CtorEvent.call CallName.eventRegister]
    match VerifyHResult p pr.eventRegister ("EventRegister") ERROR_SUCCESS with
    | Except.error f => (e2, CtorResult.raised f)
    | Except.ok _ =>
      let e3 := e2 ++ [CtorEvent.call CallName.createDirectories]
      let path := outputFolder ++ logEtlSuffix
      let e4 := e3 ++ [CtorEvent.assertPathLen (decide (path.length ≤ logFilePathCapacity))]
      match mkPropsLogH l providerId bufferSize path with
      | CtorOutcome.assertFail => (e4, CtorResult.assertFailed)
      | CtorOutcome.ok _ =>
        let e5 := e4 ++ [CtorEvent.assertNameLen (decide (sessionName.length ≤ sessionNameCapacity))]
        if sessionName.length ≤ sessionNameCapacity then
          let sc := sessionCtor p pr.startTrace1 pr.controlStop pr.startTrace2
          let e6 := e5 ++ sc.1.map fun c => CtorEvent.call c.1
          match sc.2 with
          | Except.error f => (e6, CtorResult.raised f)
          | Except.ok _ =>
            let e7 := e6 ++ [CtorEvent.call CallName.enableTrace]
            match VerifyHResult p pr.enableTrace ("EnableTraceEx2 - enabling provider")
                ERROR_SUCCESS with
            | Except.error f => (e7, CtorResult.raised f)
            | Except.ok _ => (e7, CtorResult.ok)
        else
          (e5, CtorResult.assertFailed)

/-- Platform results in which every constructor call succeeds. -/
def allOkResults : PlatformResults :=
  { coCreateGuid := 0, eventRegister := 0, startTrace1 := 0, controlStop := 0,
    startTrace2 := 0, enableTrace := 0 }

/-! Move semantics of the LogH variant MiniLog, whose only data member is
the std::unique_ptr m_impl: the defaulted move constructor and move
assignment move the unique_ptr, which leaves the source pointer null. -/

structure ImplState where
  providerId : Guid
  registrationHandle : Nat
  sessionHandle : Nat
  deriving DecidableEq, Repr

structure MiniLogState where
  m_impl : Option ImplState
  deriving DecidableEq, Repr

/-- Defaulted move constructor: the new object takes the impl pointer and
the moved-from source is left holding null. The first component is the
newly constructed object, the second the source after the move. -/
def miniLogMoveConstruct (src : MiniLogState) : MiniLogState × MiniLogState :=
  ({ m_impl := src.m_impl }, { m_impl := Option.none })

/-- Defaulted move assignment: the target takes the impl pointer (its old
impl is destroyed) and the source is left holding null. The first
component is the target after assignment, the second the source. -/
def miniLogMoveAssign (dst src : MiniLogState) : MiniLogState × MiniLogState :=
  ({ m_impl := src.m_impl }, { m_impl := Option.none })

inductive EmitOutcome
  | nullDeref
  | ran (calls : List WriteCall) (result : Except Failure Unit)

/-- Embedding of MiniLog::operator(): dereference m_impl and run Write; on
a null impl pointer the dereference is undefined behaviour, modelled as
the nullDeref outcome. -/
def miniLogEmit (s : MiniLogState) (p : MsgPlatform) (message : List Nat)
    (eventWriteResult : Nat) : EmitOutcome :=
  match s.m_impl with
  | Option.none => EmitOutcome.nullDeref
  | Option.some _ =>
    let w := implWrite p message eventWriteResult
    EmitOutcome.ran w.1 w.2

/-- Embedding of the defaulted MiniLog destructor: the unique_ptr deletes
the Impl when non-null, running its teardown steps, and does nothing when
the pointer is null. -/
def miniLogDestruct (s : MiniLogState) : List TeardownStep :=
  match s.m_impl with
  | Option.none => []
  | Option.some _ => destructorSteps implLogHMembers

/-! Theorems about the claims. -/

/-- C6 counterexample. The claim states the Verifier returns normally if
and only if the code matches the expected-good value; but the
optional-expectation variant also requires the code to be a success code,
so a code equal to a supplied non-success expectation (here E_FAIL matched
against an expected E_FAIL) still raises. -/
theorem C6_verifier_counterexample :
    VerifyHResultOpt trivP E_FAIL ("ctx") (Option.some E_FAIL) =
      Except.error { code := E_FAIL, context := "ctx", codeMessage := "m" }
    ∧ E_FAIL = E_FAIL := by
  exact ⟨by rfl, rfl⟩

/-- C6 amended. The fixed-expectation Verifier returns normally exactly
when the code equals the expected good value; the optional-expectation
variant returns normally exactly when the code is a success code and, if
an expectation is supplied, also matches it. On failure both raise a
Failure carrying the code, the platform resolved message for the code,
and a context string: the diagnostic string alone, except that when the
platform has no properly formatted message for the code and the system
message table yields text, that text is prefixed to the diagnostic. -/
theorem C6_verifier_amended (p : MsgPlatform) (c e : Nat) (oe : Option Nat) (info : String) :
    (VerifyHResult p c info e = Except.ok () ↔ c = e)
    ∧ (VerifyHResultOpt p c info oe = Except.ok ()
        ↔ (SUCCEEDED c = true ∧ ∀ x, oe = Option.some x → c = x))
    ∧ (c ≠ e → VerifyHResult p c info e = Except.error (mkFailure p c info))
    ∧ (VerifyHResultOpt p c info oe ≠ Except.ok ()
        → VerifyHResultOpt p c info oe = Except.error (mkFailure p c info))
    ∧ (mkFailure p c info).code = c
    ∧ (mkFailure p c info).codeMessage = p.errorMessage c
    ∧ (p.errorMessage c = p.errorMessage 0 →
        ∀ s, p.formatMessage c = Option.some s → (mkFailure p c info).context = s ++ info)
    ∧ (p.errorMessage c ≠ p.errorMessage 0 → (mkFailure p c info).context = info)
    ∧ (p.errorMessage c = p.errorMessage 0 → p.formatMessage c = Option.none →
        (mkFailure p c info).context = info) := by
  refine ⟨?_, ?_, ?_, ?_, ?_, ?_, ?_, ?_, ?_⟩
  · unfold VerifyHResult
    by_cases h : c = e <;> simp [h]
  · unfold VerifyHResultOpt
    cases oe with
    | none => by_cases hs : SUCCEEDED c <;> simp [Option.any, hs]
    | some x =>
      by_cases hs : SUCCEEDED c <;> by_cases hx : c = x <;>
        simp [Option.any, hs, hx, bne]
  · intro h
    unfold VerifyHResult
    simp [h]
  · intro h
    unfold VerifyHResultOpt at h ⊢
    by_cases hc : (oe.any fun x => c != x) || !(SUCCEEDED c) <;> simp [hc] at h ⊢
  · unfold mkFailure
    split
    · cases hf : p.formatMessage c <;> simp [hf]
    · rfl
  · unfold mkFailure
    split
    · cases hf : p.formatMessage c <;> simp [hf]
    · rfl
  · intro hmsg s hf
    unfold mkFailure
    simp [hmsg, hf]
  · intro hmsg
    unfold mkFailure
    simp [hmsg]
  · intro hmsg hf
    unfold mkFailure
    simp [hmsg, hf]

/-- C6 witness: the amended theorem evaluated at code 5 against expected
good value 0 on a platform with no properly formatted message, whose
message table text F is prefixed to the diagnostic. -/
theorem C6_verifier_amended_w :
    VerifyHResult fmtP 5 ("i") 0 = Except.error { code := 5, context := "Fi", codeMessage := "m" } := by
  have h := (C6_verifier_amended fmtP 5 0 (Option.none) ("i")).2.2.1 (by decide)
  exact h.trans (by rfl)

/-- C1 counterexample. The claim fixes the teardown order disable, stop,
unregister for every Logger Facade; in the Part000 variant the provider
member is declared last, so its destructor runs first and the registration
is undone before the enablement. -/
theorem C1_teardown_counterexample :
    destructorSteps implPart000Members ≠
      [TeardownStep.disableProvider, TeardownStep.stopSession, TeardownStep.unregisterProvider]
    ∧ destructorSteps implPart000Members =
      [TeardownStep.unregisterProvider, TeardownStep.disableProvider, TeardownStep.stopSession] := by
  exact ⟨by decide, by decide⟩

/-- C1 amended. In the LogH variant, teardown disables the enablement,
then stops the session, then unregisters the provider, so the enablement
is undone before either other resource; in the Part000 variant teardown
unregisters the provider first, then disables the enablement, then stops
the session (reverse of that variant construction order). In both
variants every step is issued unconditionally whatever status the platform
answers, the statuses are discarded, and no failure is produced. -/
theorem C1_teardown_amended (platformResults : TeardownStep → Nat) :
    destructorSteps implLogHMembers =
      [TeardownStep.disableProvider, TeardownStep.stopSession, TeardownStep.unregisterProvider]
    ∧ destructorSteps implPart000Members =
      [TeardownStep.unregisterProvider, TeardownStep.disableProvider, TeardownStep.stopSession]
    ∧ (runDestructor implLogHMembers platformResults).map Prod.fst =
        destructorSteps implLogHMembers
    ∧ (runDestructor implPart000Members platformResults).map Prod.fst =
        destructorSteps implPart000Members := by
  exact ⟨rfl, rfl, rfl, rfl⟩

/-- C1 witness: the amended theorem run against a platform answering every
teardown call with a failing status still performs the full LogH teardown
sequence in order. -/
theorem C1_teardown_amended_w :
    (runDestructor implLogHMembers fun _ => 5).map Prod.fst =
      [TeardownStep.disableProvider, TeardownStep.stopSession, TeardownStep.unregisterProvider] := by
  have h := C1_teardown_amended fun _ => 5
  exact h.2.2.1.trans h.1

/-- C2. When the first StartTraceA reports ERROR_ALREADY_EXISTS, the
session constructor issues exactly one stop control call followed by
exactly one retried StartTraceA and nothing further; the constructor
outcome ignores the stop status entirely, succeeds exactly when the retry
returns ERROR_SUCCESS, and any other retry status, a second
ERROR_ALREADY_EXISTS included, raises through the Verifier. -/
theorem C2_retry_once (p : MsgPlatform) (startResult1 stopResult startResult2 : Nat)
    (h : startResult1 = ERROR_ALREADY_EXISTS) :
    (sessionCtor p startResult1 stopResult startResult2).1.map Prod.fst =
      [CallName.startTrace, CallName.controlStop, CallName.startTrace]
    ∧ ((sessionCtor p startResult1 stopResult startResult2).2 = Except.ok ()
        ↔ startResult2 = ERROR_SUCCESS)
    ∧ (startResult2 ≠ ERROR_SUCCESS →
        (sessionCtor p startResult1 stopResult startResult2).2 =
          Except.error (mkFailure p startResult2 ("StartTrace")))
    ∧ (∀ stopResult2 : Nat,
        (sessionCtor p startResult1 stopResult startResult2).2 =
          (sessionCtor p startResult1 stopResult2 startResult2).2) := by
  subst h
  refine ⟨by simp [sessionCtor], ?_, ?_, fun s2 => by simp [sessionCtor]⟩
  · unfold sessionCtor VerifyHResult
    by_cases h2 : startResult2 = ERROR_SUCCESS <;> simp [h2]
  · intro h2
    unfold sessionCtor VerifyHResult
    simp [h2]

/-- C2 witness: a first collision followed by a second collision on the
retry issues start, stop, start and raises the StartTrace failure. -/
theorem C2_retry_once_w :
    (sessionCtor trivP 183 7 183).1.map Prod.fst =
      [CallName.startTrace, CallName.controlStop, CallName.startTrace]
    ∧ (sessionCtor trivP 183 7 183).2 =
        Except.error { code := 183, context := "StartTrace", codeMessage := "m" } := by
  refine ⟨(C2_retry_once trivP 183 7 183 rfl).1, ?_⟩
  have h := (C2_retry_once trivP 183 7 183 rfl).2.2.1 (by decide)
  exact h.trans (by rfl)

/-- C3 counterexample. The claim promises the data block always carries
the original byte length; the source casts the size_t length to the 32
bit ULONG, so a payload of 2 to the 32 bytes is recorded with length 0. -/
theorem C3_length_counterexample :
    (implWrite trivP (List.replicate UInt32Mod 0) 0).1 =
      [{ descriptor := c_descriptor, userDataCount := 1,
          userData := [{ Ptr := List.replicate UInt32Mod 0, Size := 0 }] }]
    ∧ (List.replicate UInt32Mod 0).length = UInt32Mod
    ∧ (0 : Nat) ≠ UInt32Mod := by
  refine ⟨?_, by simp, by norm_num [UInt32Mod]⟩
  simp [implWrite, EventDataDescCreate, List.length_replicate, Nat.mod_self]

/-- C3 amended. One emit call builds exactly one record envelope holding
exactly one data block whose pointer is the caller supplied bytes
unmodified and whose recorded length is the payload byte length reduced
modulo 2 to the 32; for every payload shorter than 2 to the 32 bytes the
original length is preserved exactly. Exactly one write call is issued
through the registration handle, succeeding exactly on ERROR_SUCCESS and
raising through the Verifier otherwise. -/
theorem C3_emit_amended (p : MsgPlatform) (message : List Nat) (r : Nat) :
    (implWrite p message r).1 =
      [{ descriptor := c_descriptor, userDataCount := 1,
          userData := [{ Ptr := message, Size := message.length % UInt32Mod }] }]
    ∧ (message.length < UInt32Mod →
        (implWrite p message r).1 =
          [{ descriptor := c_descriptor, userDataCount := 1,
              userData := [{ Ptr := message, Size := message.length }] }])
    ∧ ((implWrite p message r).2 = Except.ok () ↔ r = ERROR_SUCCESS)
    ∧ (r ≠ ERROR_SUCCESS →
        (implWrite p message r).2 = Except.error (mkFailure p r ("EventWrite"))) := by
  refine ⟨rfl, ?_, ?_, ?_⟩
  · intro h
    simp [implWrite, EventDataDescCreate, Nat.mod_eq_of_lt h]
  · unfold implWrite VerifyHResult
    by_cases h : r = ERROR_SUCCESS <;> simp [h]
  · intro h
    unfold implWrite VerifyHResult
    simp [h]

/-- C3 witness: the amended theorem at the test harness payload length of
13 bytes, which is preserved exactly; a failing write raises. -/
theorem C3_emit_amended_w :
    (implWrite trivP [72, 105] 0).1 =
      [{ descriptor := c_descriptor, userDataCount := 1,
          userData := [{ Ptr := [72, 105], Size := 2 }] }]
    ∧ (implWrite trivP [72, 105] 5).2 =
        Except.error { code := 5, context := "EventWrite", codeMessage := "m" } := by
  refine ⟨(C3_emit_amended trivP [72, 105] 0).2.1 (by decide), ?_⟩
  have h := (C3_emit_amended trivP [72, 105] 5).2.2.2 (by decide)
  exact h.trans (by rfl)

/-- C4 counterexample. The claim states every descriptor field is zero;
in the source initialiser the id and version fields are 1. -/
theorem C4_descriptor_counterexample :
    (implWrite trivP [72] 0).1.map WriteCall.descriptor = [c_descriptor]
    ∧ c_descriptor.Id = 1 ∧ c_descriptor.Version = 1 ∧ (1 : Nat) ≠ 0 := by
  exact ⟨rfl, rfl, rfl, by decide⟩

/-- C4 amended. Every record envelope built by emit carries the one
constant descriptor, whose id and version fields are 1 and whose channel,
severity level, opcode, task and keyword fields are zero, so it carries no
semantic routing information beyond those fixed values. -/
theorem C4_descriptor_amended (p : MsgPlatform) (message : List Nat) (r : Nat) :
    (implWrite p message r).1.map WriteCall.descriptor = [c_descriptor]
    ∧ c_descriptor.Id = 1 ∧ c_descriptor.Version = 1
    ∧ c_descriptor.Channel = 0 ∧ c_descriptor.Level = 0
    ∧ c_descriptor.Opcode = 0 ∧ c_descriptor.Task = 0 ∧ c_descriptor.Keyword = 0 := by
  exact ⟨rfl, rfl, rfl, rfl, rfl, rfl, rfl, rfl⟩

/-- C4 witness: the amended theorem evaluated at a concrete one byte
payload. -/
theorem C4_descriptor_amended_w :
    (implWrite trivP [104] 0).1.map WriteCall.descriptor = [c_descriptor]
    ∧ c_descriptor.Id = 1 := by
  exact ⟨(C4_descriptor_amended trivP [104] 0).1, (C4_descriptor_amended trivP [104] 0).2.1⟩

/-- C5 counterexample. The claim states every packer sets all three
logging mode flags; the Part000 variant packer sets only the sequential
file mode flag. -/
theorem C5_mode_counterexample :
    (producedProps (mkPropsPart000 x64Layout zeroGuid 4 [99])).map EtwProperties.logFileMode =
      Option.some EVENT_TRACE_FILE_MODE_SEQUENTIAL
    ∧ EVENT_TRACE_FILE_MODE_SEQUENTIAL ≠
        (EVENT_TRACE_FILE_MODE_SEQUENTIAL
          ||| EVENT_TRACE_PRIVATE_LOGGER_MODE
          ||| EVENT_TRACE_PRIVATE_IN_PROC) := by
  exact ⟨by rfl, by decide⟩

/-- C5 amended. Every control block the LogH variant packer produces has
its logging mode set to exactly sequential file writing combined with the
private session and in-process flags; every control block the Part000
variant packer produces has its logging mode set to the sequential file
flag alone, a different value. -/
theorem C5_mode_amended (l : Layout) (sid : Guid) (bs : Nat) (path : List Nat)
    (h : path.length ≤ logFilePathCapacity) :
    producedProps (mkPropsLogH l sid bs path) = Option.some (mkPropsFieldsLogH l sid bs)
    ∧ producedProps (mkPropsPart000 l sid bs path) = Option.some (mkPropsFieldsPart000 l sid bs)
    ∧ (mkPropsFieldsLogH l sid bs).logFileMode =
        (EVENT_TRACE_FILE_MODE_SEQUENTIAL
          ||| EVENT_TRACE_PRIVATE_LOGGER_MODE
          ||| EVENT_TRACE_PRIVATE_IN_PROC)
    ∧ (mkPropsFieldsPart000 l sid bs).logFileMode = EVENT_TRACE_FILE_MODE_SEQUENTIAL
    ∧ (mkPropsFieldsPart000 l sid bs).logFileMode ≠ (mkPropsFieldsLogH l sid bs).logFileMode := by
  refine ⟨?_, ?_, rfl, rfl, ?_⟩
  · simp [mkPropsLogH, setLogFilePathOn, zeroedBlock, producedProps, h]
  · simp [mkPropsPart000, setLogFilePathOn, zeroedBlock, producedProps, h]
  · show EVENT_TRACE_FILE_MODE_SEQUENTIAL ≠
      (EVENT_TRACE_FILE_MODE_SEQUENTIAL
        ||| EVENT_TRACE_PRIVATE_LOGGER_MODE
        ||| EVENT_TRACE_PRIVATE_IN_PROC)
    decide

/-- C5 witness: the amended theorem at a one byte path on the concrete
x64 layout. -/
theorem C5_mode_amended_w :
    producedProps (mkPropsPart000 x64Layout zeroGuid 4 [99]) =
      Option.some (mkPropsFieldsPart000 x64Layout zeroGuid 4) := by
  exact (C5_mode_amended x64Layout zeroGuid 4 [99] (by decide)).2.1

/-- C8. The buffer size recorded in every produced control block, in both
variants, is the requested kilobyte count passed through std::clamp with
bounds 0 and 16384, which on the unsigned request domain is the minimum of
the request and 16384; it therefore never exceeds 16384 and the ULONG
narrowing of the stored value is lossless. -/
theorem C8_buffer_clamp (l : Layout) (sid : Guid) (bs : Nat) (path : List Nat)
    (h : path.length ≤ logFilePathCapacity) :
    producedProps (mkPropsLogH l sid bs path) = Option.some (mkPropsFieldsLogH l sid bs)
    ∧ producedProps (mkPropsPart000 l sid bs path) = Option.some (mkPropsFieldsPart000 l sid bs)
    ∧ (mkPropsFieldsLogH l sid bs).bufferSize = clampSizeT bs 0 c_maxBufferSize
    ∧ (mkPropsFieldsPart000 l sid bs).bufferSize = clampSizeT bs 0 c_maxBufferSize
    ∧ clampSizeT bs 0 c_maxBufferSize = min bs 16384
    ∧ (mkPropsFieldsLogH l sid bs).bufferSize ≤ 16384
    ∧ (mkPropsFieldsLogH l sid bs).bufferSize % UInt32Mod =
        (mkPropsFieldsLogH l sid bs).bufferSize := by
  have hclamp : clampSizeT bs 0 c_maxBufferSize = min bs 16384 := by
    unfold clampSizeT c_maxBufferSize
    split_ifs <;> omega
  have hle : clampSizeT bs 0 c_maxBufferSize ≤ 16384 := by omega
  refine ⟨?_, ?_, rfl, rfl, hclamp, hle, ?_⟩
  · simp [mkPropsLogH, setLogFilePathOn, zeroedBlock, producedProps, h]
  · simp [mkPropsPart000, setLogFilePathOn, zeroedBlock, producedProps, h]
  · have : (mkPropsFieldsLogH l sid bs).bufferSize = clampSizeT bs 0 c_maxBufferSize := rfl
    rw [this]
    exact Nat.mod_eq_of_lt (by unfold UInt32Mod; omega)

/-- C8 witness: the clamp at a request of 4 kilobytes and at an oversized
request of 20000 kilobytes. -/
theorem C8_buffer_clamp_w :
    (mkPropsFieldsLogH x64Layout zeroGuid 4).bufferSize = 4
    ∧ (mkPropsFieldsLogH x64Layout zeroGuid 20000).bufferSize = 16384 := by
  have h1 := (C8_buffer_clamp x64Layout zeroGuid 4 [99] (by decide)).2.2.1
  have h2 := (C8_buffer_clamp x64Layout zeroGuid 20000 [99] (by decide)).2.2.1
  exact ⟨h1.trans (by decide), h2.trans (by decide)⟩

/-- C9. In the Part000 variant (both textually identical copies in
src/unnamed/part_000) the control block constructor leaves the 128 bit
Wnode.Guid zero for every input and its whole output is independent of the
sessionId argument, so the generated session identity is never recorded in
the block handed to the platform; the LogH variant stores its sessionId
argument, the provider identity, in that field. -/
theorem C9_ignored_session_guid (l : Layout) (sid sid2 : Guid) (bs : Nat) (path : List Nat)
    (h : path.length ≤ logFilePathCapacity) :
    producedProps (mkPropsPart000 l sid bs path) = Option.some (mkPropsFieldsPart000 l sid bs)
    ∧ (mkPropsFieldsPart000 l sid bs).wnodeGuid = zeroGuid
    ∧ mkPropsPart000 l sid bs path = mkPropsPart000 l sid2 bs path
    ∧ mkPropsFieldsPart000 l sid bs = mkPropsFieldsPart000 l sid2 bs
    ∧ (mkPropsFieldsLogH l sid bs).wnodeGuid = sid := by
  refine ⟨?_, rfl, rfl, rfl, rfl⟩
  simp [mkPropsPart000, setLogFilePathOn, zeroedBlock, producedProps, h]

/-- C9 witness: a nonzero generated session identity is not recorded by
the Part000 packer but is recorded by the LogH packer. -/
theorem C9_ignored_session_guid_w :
    (mkPropsFieldsPart000 x64Layout { value := 77 } 4).wnodeGuid = zeroGuid
    ∧ (mkPropsFieldsLogH x64Layout { value := 77 } 4).wnodeGuid = { value := 77 } := by
  exact ⟨(C9_ignored_session_guid x64Layout { value := 77 } zeroGuid 4 [99] (by decide)).2.1,
    (C9_ignored_session_guid x64Layout { value := 77 } zeroGuid 4 [99] (by decide)).2.2.2.2⟩

set_option maxRecDepth 10000 in
/-- C7 counterexample. The claim places the failed size assert before any
platform call; constructing the LogH variant facade with a 257 byte
session name does end in a failed assert, but only after the CoCreateGuid
and EventRegister platform calls and the directory creation already ran. -/
theorem C7_assert_counterexample :
    implCtorLogH allOkResults trivP x64Layout zeroGuid (List.replicate 257 65) [99] 4 =
      ([CtorEvent.call CallName.coCreateGuid, CtorEvent.call CallName.eventRegister,
          CtorEvent.call CallName.createDirectories, CtorEvent.assertPathLen true,
          CtorEvent.assertNameLen false], CtorResult.assertFailed)
    ∧ CtorEvent.call CallName.eventRegister ∈
        (implCtorLogH allOkResults trivP x64Layout zeroGuid (List.replicate 257 65) [99] 4).1 := by
  exact ⟨by decide, by decide⟩

/-- C7 amended. Constructing the LogH variant facade with a session name
longer than the 256 byte capacity or a log file path longer than the 1024
byte capacity ends as a failed assert, a precondition violation distinct
from a raised recoverable failure, and neither the session start call nor
the provider enable call is ever reached; however the identifier
generation and source registration platform calls (and the directory
creation) have already been made by then, so the failure precedes the
session related platform calls rather than every platform call. -/
theorem C7_assert_amended (pr : PlatformResults) (p : MsgPlatform) (l : Layout) (g : Guid)
    (sessionName outputFolder : List Nat) (bufferSize : Nat)
    (hg : pr.coCreateGuid = S_OK) (hr : pr.eventRegister = ERROR_SUCCESS)
    (hbig : sessionNameCapacity < sessionName.length
      ∨ logFilePathCapacity < (outputFolder ++ logEtlSuffix).length) :
    (implCtorLogH pr p l g sessionName outputFolder bufferSize).2 = CtorResult.assertFailed
    ∧ CtorEvent.call CallName.startTrace ∉
        (implCtorLogH pr p l g sessionName outputFolder bufferSize).1
    ∧ CtorEvent.call CallName.enableTrace ∉
        (implCtorLogH pr p l g sessionName outputFolder bufferSize).1
    ∧ CtorEvent.call CallName.eventRegister ∈
        (implCtorLogH pr p l g sessionName outputFolder bufferSize).1 := by
  have h1 : VerifyHResult p pr.coCreateGuid ("CoCreateGuid failed") S_OK = Except.ok () := by
    unfold VerifyHResult
    simp [hg]
  have h2 : VerifyHResult p pr.eventRegister ("EventRegister") ERROR_SUCCESS = Except.ok () := by
    unfold VerifyHResult
    simp [hr]
  by_cases hp : (outputFolder ++ logEtlSuffix).length ≤ logFilePathCapacity
  · have hp2 : outputFolder.length + logEtlSuffix.length ≤ logFilePathCapacity := by
      simpa using hp
    have hname : ¬ sessionName.length ≤ sessionNameCapacity := by
      rcases hbig with hb | hb
      · omega
      · omega
    have key : implCtorLogH pr p l g sessionName outputFolder bufferSize =
        ([CtorEvent.call CallName.coCreateGuid, CtorEvent.call CallName.eventRegister,
            CtorEvent.call CallName.createDirectories, CtorEvent.assertPathLen true,
            CtorEvent.assertNameLen false], CtorResult.assertFailed) := by
      simp [implCtorLogH, h1, h2, mkPropsLogH, setLogFilePathOn, zeroedBlock, hp2, hname]
    rw [key]
    exact ⟨rfl, by decide, by decide, by decide⟩
  · have hp2 : ¬ outputFolder.length + logEtlSuffix.length ≤ logFilePathCapacity := by
      simpa using hp
    have key : implCtorLogH pr p l g sessionName outputFolder bufferSize =
        ([CtorEvent.call CallName.coCreateGuid, CtorEvent.call CallName.eventRegister,
            CtorEvent.call CallName.createDirectories, CtorEvent.assertPathLen false],
          CtorResult.assertFailed) := by
      simp [implCtorLogH, h1, h2, mkPropsLogH, setLogFilePathOn, zeroedBlock, hp2]
    rw [key]
    exact ⟨rfl, by decide, by decide, by decide⟩

/-- C7 witness: the amended theorem at a 257 byte session name with every
platform call succeeding. -/
theorem C7_assert_amended_w :
    (implCtorLogH allOkResults trivP x64Layout zeroGuid (List.replicate 257 65) [99] 4).2 =
      CtorResult.assertFailed := by
  exact (C7_assert_amended allOkResults trivP x64Layout zeroGuid (List.replicate 257 65) [99] 4
    rfl rfl (Or.inl (by norm_num [sessionNameCapacity]))).1

/-- C10. The LogH variant MiniLog is move constructible and move
assignable: the new object takes over the impl pointer and the moved-from
object is left with a null impl pointer, so invoking the emit operation on
a moved-from object dereferences null (emit therefore presupposes the
object was not moved from), while destroying a moved-from object performs
no teardown step and is harmless. -/
theorem C10_move_semantics (s t : MiniLogState) (p : MsgPlatform) (message : List Nat) (r : Nat) :
    (miniLogMoveConstruct s).1.m_impl = s.m_impl
    ∧ (miniLogMoveConstruct s).2.m_impl = Option.none
    ∧ (miniLogMoveAssign t s).1.m_impl = s.m_impl
    ∧ (miniLogMoveAssign t s).2.m_impl = Option.none
    ∧ miniLogEmit (miniLogMoveConstruct s).2 p message r = EmitOutcome.nullDeref
    ∧ miniLogDestruct (miniLogMoveConstruct s).2 = [] := by
  exact ⟨rfl, rfl, rfl, rfl, rfl, rfl⟩

/-- C10 witness: the move theorem at a concrete live logger state. -/
theorem C10_move_semantics_w :
    (miniLogMoveConstruct
        { m_impl := Option.some
            { providerId := zeroGuid, registrationHandle := 1, sessionHandle := 2 } }).2.m_impl =
      Option.none
    ∧ miniLogEmit
        (miniLogMoveConstruct
          { m_impl := Option.some
              { providerId := zeroGuid, registrationHandle := 1, sessionHandle := 2 } }).2
        trivP [72] 0 = EmitOutcome.nullDeref := by
  exact
    ⟨(C10_move_semantics
        { m_impl := Option.some
            { providerId := zeroGuid, registrationHandle := 1, sessionHandle := 2 } }
        { m_impl := Option.none } trivP [72] 0).2.1,
      (C10_move_semantics
        { m_impl := Option.some
            { providerId := zeroGuid, registrationHandle := 1, sessionHandle := 2 } }
        { m_impl := Option.none } trivP [72] 0).2.2.2.2.1⟩

end EtwSpec
